import Mathlib

/-! # sleepwatcher.c: idle timer, display state and power-source change detection

A shallow embedding of `sleepwatcher.c`.  The C file keeps its state in one
global (`idletimeout`) and four function-local statics; here they are the
fields of one record, `State`, that every callback receives and returns.

Modelling conventions

* `CFAbsoluteTime` (a C `double`, in seconds) is an exact rational; rounding of
  the floating-point sum `now + timeout * TIMER_RESOLUTION` is not modelled.
* Every call of `CFAbsoluteTimeGetCurrent()` made while one callback runs
  returns the value `now` that the callback is given.
* The CoreFoundation objects the program touches (run-loop timers) live in
  `CFWorld`: the timer objects that were created and not yet released, and
  the references of the timers that are scheduled on the current run loop.
* The host hooks (`onSystemIdle`, `onDisplaySleep`, `onDisplayWakeup`) and the
  acknowledgement `IOAllowPowerChange` are recorded, in order, in `State.trace`.
  The hooks are the host's; they are taken not to write the variables of this
  file.
* The `enum` of `displayCallback` has no negative enumerator; its object is an
  unsigned 32-bit integer, so `state++` is addition modulo `2 ^ 32`.
-/

namespace SleepWatcher

/-! ## Constants -/

/-- Seconds per unit of timeout: `#define TIMER_RESOLUTION 0.1`. -/
def TIMER_RESOLUTION : ℚ := 1 / 10

/-- The interval handed to `CFRunLoopTimerCreate`; the value is that of the
CoreFoundation header `CFDate.h` (seconds between 1904 and 2001). -/
def kCFAbsoluteTimeIntervalSince1904 : ℚ := 3061152000

/-- The value of `iokit_common_msg(0x210)` in the IOKit header `IOMessage.h`. -/
def kIOMessageDeviceWillPowerOff : Nat := 0xe0000210

/-- The value of `iokit_common_msg(0x230)` in the IOKit header `IOMessage.h`. -/
def kIOMessageDeviceHasPoweredOn : Nat := 0xe0000230

/-- The value of `iokit_common_msg(0x270)` in the IOKit header `IOMessage.h`. -/
def kIOMessageCanSystemSleep : Nat := 0xe0000270

/-- The value of `iokit_common_msg(0x280)` in the IOKit header `IOMessage.h`. -/
def kIOMessageSystemWillSleep : Nat := 0xe0000280

/-- The value of `iokit_common_msg(0x290)` in the IOKit header `IOMessage.h`. -/
def kIOMessageSystemWillNotSleep : Nat := 0xe0000290

/-- The value of `iokit_common_msg(0x300)` in the IOKit header `IOMessage.h`. -/
def kIOMessageSystemHasPoweredOn : Nat := 0xe0000300

/-- The macro `POWER_SOURCE_ERROR`: error, don't assume power source changed. -/
def POWER_SOURCE_ERROR : Int := -1

/-- The macro `POWER_SOURCE_BATTERY`: not plugged in, using battery power. -/
def POWER_SOURCE_BATTERY : Int := 0

/-- The macro `POWER_SOURCE_AC`: plugged in, using AC power. -/
def POWER_SOURCE_AC : Int := 1

/-- The string `kIOPSACPowerValue` of the IOKit header `IOPSKeys.h`. -/
def kIOPSACPowerValue : String := "AC Power"

/-- The enumerator `displayOn` of the enum in `displayCallback`. -/
def displayOn : Nat := 0

/-- The enumerator `displayDimmed` of the enum in `displayCallback`. -/
def displayDimmed : Nat := 1

/-- The enumerator `displayOff` of the enum in `displayCallback`. -/
def displayOff : Nat := 2

/-! ## CoreFoundation run-loop timers -/

/-- The timer callbacks of the program; `idleCallback` is the only one. -/
inductive CFRunLoopTimerCallBack where
  | idleCallback
  deriving DecidableEq, Repr

/-- A run-loop timer object: its identity and the fields the program sets. -/
structure CFRunLoopTimer where
  ref : Nat
  nextFireDate : ℚ
  interval : ℚ
  callout : CFRunLoopTimerCallBack
  deriving DecidableEq, Repr

/-- The CoreFoundation side of the process: `timers` are the timer objects
created and not yet released, `runLoop` the references of the valid timers
added to the current run loop, `nextRef` the identity of the next object. -/
structure CFWorld where
  nextRef : Nat
  timers : List CFRunLoopTimer
  runLoop : List Nat
  deriving DecidableEq, Repr

/-- `CFRunLoopTimerCreate`: a new timer object with a fresh identity. -/
def CFRunLoopTimerCreate (fireDate interval : ℚ) (callout : CFRunLoopTimerCallBack)
    (w : CFWorld) : Nat × CFWorld :=
  (w.nextRef,
   { w with nextRef := w.nextRef + 1,
            timers := ⟨w.nextRef, fireDate, interval, callout⟩ :: w.timers })

/-- `CFRunLoopAddTimer` on the current run loop, default mode. -/
def CFRunLoopAddTimer (timer : Nat) (w : CFWorld) : CFWorld :=
  if timer ∈ w.runLoop then w else { w with runLoop := timer :: w.runLoop }

/-- `CFRunLoopTimerSetNextFireDate`: moves the fire date of that timer only. -/
def CFRunLoopTimerSetNextFireDate (timer : Nat) (fireDate : ℚ) (w : CFWorld) : CFWorld :=
  { w with timers := w.timers.map fun tm =>
      if tm.ref = timer then { tm with nextFireDate := fireDate } else tm }

/-- `CFRunLoopTimerInvalidate`: the timer leaves the run loop for good. -/
def CFRunLoopTimerInvalidate (timer : Nat) (w : CFWorld) : CFWorld :=
  { w with runLoop := w.runLoop.filter fun r => r ≠ timer }

/-- `CFRelease` of the creator's reference to an invalidated timer: the
object is gone. -/
def CFRelease (timer : Nat) (w : CFWorld) : CFWorld :=
  { w with timers := w.timers.filter fun tm => tm.ref ≠ timer }

/-- The timers that can still fire: live objects scheduled on the run loop. -/
def pendingTimers (w : CFWorld) : List CFRunLoopTimer :=
  w.timers.filter fun tm => tm.ref ∈ w.runLoop

/-- True when the run loop, looking at its timers at time `now`, has one to
fire: a pending timer whose fire date is not after `now`. -/
def timerDue (now : ℚ) (w : CFWorld) : Bool :=
  (pendingTimers w).any fun tm => tm.nextFireDate ≤ now

/-! ## Power-source description, as seen by `getPowerSource` -/

/-- What `IOPSGetPowerSourceDescription` returns for a source: the dictionary,
reduced to the value under `kIOPSPowerSourceStateKey` (`none`: key missing). -/
structure PowerSourceDescription where
  powerSourceState : Option String
  deriving DecidableEq, Repr

/-- One element of the power-sources array: `description` is `none` when
`IOPSGetPowerSourceDescription` returns `NULL` for it. -/
structure PowerSourceEntry where
  description : Option PowerSourceDescription
  deriving DecidableEq, Repr

/-- The blob of `IOPSCopyPowerSourcesInfo`: `powerSources` is what
`IOPSCopyPowerSourcesList` returns for it (`none`: `NULL`); an element of the
array is `none` when `CFArrayGetValueAtIndex` yields `NULL`. -/
structure PowerSourcesInfo where
  powerSources : Option (List (Option PowerSourceEntry))
  deriving DecidableEq, Repr

/-! ## Program state -/

/-- What the program does to the outside, in order of occurrence. -/
inductive Effect where
  | onSystemIdle
  | onDisplaySleep
  | onDisplayWakeup
  | IOAllowPowerChange (msgArgument : Int)
  deriving DecidableEq, Repr

/-- The global `idletimeout`, the statics of `setupIdleTimer`, `hidCallback`,
`displayCallback` and `powerSourceCallback`, the CoreFoundation objects and
the effects so far. -/
structure State where
  idletimeout : Int
  idleTimer : Option Nat
  timeOfLastCall : ℚ
  displayState : Nat
  oldPowerSource : Int
  cf : CFWorld
  trace : List Effect
  deriving DecidableEq, Repr

/-- The state at program start: the initialisers of the C file. -/
def State.init : State :=
  { idletimeout := 0
    idleTimer := none
    timeOfLastCall := 0
    displayState := displayOn
    oldPowerSource := POWER_SOURCE_ERROR
    cf := { nextRef := 0, timers := [], runLoop := [] }
    trace := [] }

/-! ## The functions of sleepwatcher.c -/

/-- The function `setupTimer`: `timer` is `none` for `NULL`; the result is
the returned reference and the CoreFoundation state after the call. -/
def setupTimer (now : ℚ) (timeout : Int) (timer : Option Nat)
    (callback : CFRunLoopTimerCallBack) (w : CFWorld) : Option Nat × CFWorld :=
  if timeout ≠ 0 then
    match timer with
    | some t =>
      (some t, CFRunLoopTimerSetNextFireDate t (now + timeout * TIMER_RESOLUTION) w)
    | none =>
      let created := CFRunLoopTimerCreate (now + timeout * TIMER_RESOLUTION)
        kCFAbsoluteTimeIntervalSince1904 callback w
      (some created.1, CFRunLoopAddTimer created.1 created.2)
  else
    match timer with
    | some t => (none, CFRelease t (CFRunLoopTimerInvalidate t w))
    | none => (none, w)

/-- The function `setupIdleTimer`. -/
def setupIdleTimer (now : ℚ) (st : State) : State :=
  let r := setupTimer now st.idletimeout st.idleTimer CFRunLoopTimerCallBack.idleCallback st.cf
  { st with idleTimer := r.1, cf := r.2 }

/-- The function `idleCallback`. -/
def idleCallback (now : ℚ) (st : State) : State :=
  setupIdleTimer now { st with trace := st.trace ++ [Effect.onSystemIdle] }

/-- The function `hidCallback`. -/
def hidCallback (now : ℚ) (st : State) : State :=
  let st1 := if st.timeOfLastCall = 0 then { st with timeOfLastCall := now } else st
  let st2 := { st1 with timeOfLastCall := now }
  setupIdleTimer now st2

/-- The function `powerCallback`; `msgArgument` is the `(long)` cast of the
pointer argument. -/
def powerCallback (now : ℚ) (msgType : Nat) (msgArgument : Int) (st : State) : State :=
  if msgType = kIOMessageCanSystemSleep then st
  else if msgType = kIOMessageSystemWillSleep then
    { st with trace := st.trace ++ [Effect.IOAllowPowerChange msgArgument] }
  else if msgType = kIOMessageSystemWillNotSleep then st
  else if msgType = kIOMessageSystemHasPoweredOn then setupIdleTimer now st
  else st

/-- The function `displayCallback`. -/
def displayCallback (msgType : Nat) (st : State) : State :=
  if msgType = kIOMessageDeviceWillPowerOff then
    { st with trace := st.trace ++ [Effect.onDisplaySleep],
              displayState := (st.displayState + 1) % 2 ^ 32 }
  else if msgType = kIOMessageDeviceHasPoweredOn then
    { st with trace := st.trace ++ [Effect.onDisplayWakeup],
              displayState := displayOn }
  else st

/-- The function `getPowerSource`; `info` is `none` when
`IOPSCopyPowerSourcesInfo` returns `NULL`. -/
def getPowerSource (info : Option PowerSourcesInfo) : Int :=
  match info with
  | none => POWER_SOURCE_ERROR
  | some i =>
    match i.powerSources with
    | none => POWER_SOURCE_ERROR
    | some [] => POWER_SOURCE_ERROR
    | some (none :: _) => POWER_SOURCE_ERROR
    | some (some source :: _) =>
      match source.description with
      | none => POWER_SOURCE_ERROR
      | some description =>
        match description.powerSourceState with
        | none => POWER_SOURCE_ERROR
        | some powerSourceState =>
          if powerSourceState = kIOPSACPowerValue then POWER_SOURCE_AC
          else POWER_SOURCE_BATTERY

/-- The condition of the `if` in `powerSourceCallback`. -/
def powerSourceChanged (powerSource oldPowerSource : Int) : Bool :=
  powerSource != POWER_SOURCE_ERROR && powerSource != oldPowerSource

/-- The function `powerSourceCallback`; `info` is what the operating system
answers to the query made by `getPowerSource` during this call. -/
def powerSourceCallback (info : Option PowerSourcesInfo) (st : State) : State :=
  let powerSource := getPowerSource info
  if powerSourceChanged powerSource st.oldPowerSource then
    { st with oldPowerSource := powerSource }
  else st

/-- The function `setupSleepWatcher` up to the call of `CFRunLoopRun`: the
state with which the run loop is entered.  `subscribed` tells whether the four
`initialize...Notifications` calls all succeed; when one fails the process
exits (`none`). -/
def setupSleepWatcher (now : ℚ) (timeout : Int) (subscribed : Bool) (st : State) :
    Option State :=
  let st1 := setupIdleTimer now { st with idletimeout := timeout }
  if subscribed then some st1 else none

/-! ## Runs of callbacks and observations on them -/

/-- Runs `displayCallback` on the messages in order of arrival. -/
def displayRun (msgs : List Nat) (st : State) : State :=
  msgs.foldl (fun s msgType => displayCallback msgType s) st

/-- The number of "device will power off" messages that arrived after the
last "device has powered on" message (after the start when there is none). -/
def powerOffsSinceOn (msgs : List Nat) : Nat :=
  (msgs.reverse.takeWhile fun m => m ≠ kIOMessageDeviceHasPoweredOn).count
    kIOMessageDeviceWillPowerOff

/-- Runs `powerSourceCallback` on the answers of the operating system to the
successive notifications. -/
def powerSourceRun (infos : List (Option PowerSourcesInfo)) (st : State) : State :=
  infos.foldl (fun s info => powerSourceCallback info s) st

/-- For each notification of the run, whether `powerSourceCallback` entered
the body of its `if` (the place of the change hook). -/
def powerSourceFireLog : List (Option PowerSourcesInfo) → State → List Bool
  | [], _ => []
  | info :: rest, st =>
    powerSourceChanged (getPowerSource info) st.oldPowerSource ::
      powerSourceFireLog rest (powerSourceCallback info st)

/-- The number of notifications of the run on which the body of the `if` of
`powerSourceCallback` is entered. -/
def powerSourceFires (infos : List (Option PowerSourcesInfo)) (st : State) : Nat :=
  (powerSourceFireLog infos st).count true

/-- The fire log of a run as a function of the resolution outcomes alone:
`old` is the stored power source before the first notification. -/
def changeLog : List Int → Int → List Bool
  | [], _ => []
  | r :: rs, old =>
    powerSourceChanged r old :: changeLog rs (if powerSourceChanged r old then r else old)

/-- An answer of the operating system that `getPowerSource` resolves to AC. -/
def infoAC : Option PowerSourcesInfo :=
  some ⟨some [some ⟨some ⟨some "AC Power"⟩⟩]⟩

/-- An answer of the operating system that `getPowerSource` resolves to
battery. -/
def infoBattery : Option PowerSourcesInfo :=
  some ⟨some [some ⟨some ⟨some "Battery Power"⟩⟩]⟩

/-- An answer of the operating system that `getPowerSource` cannot resolve:
the list of power sources is empty. -/
def infoError : Option PowerSourcesInfo :=
  some ⟨some []⟩

/-! ## Idle timer: the handle, the run loop and arm calls -/

/-- The handle held by the program and the CoreFoundation state agree: with
no handle there is no timer object and nothing on the run loop; with a handle
there is exactly one timer object, the one the handle names, and it is the
only timer on the run loop. -/
def HandleOk (timer : Option Nat) (w : CFWorld) : Prop :=
  match timer with
  | none => w.timers = [] ∧ w.runLoop = []
  | some t => w.timers.map (fun tm => tm.ref) = [t] ∧ w.runLoop = [t]

instance instDecidableHandleOk : (timer : Option Nat) → (w : CFWorld) →
    Decidable (HandleOk timer w)
  | none, w => inferInstanceAs (Decidable (w.timers = [] ∧ w.runLoop = []))
  | some t, w =>
    inferInstanceAs (Decidable (w.timers.map (fun tm => tm.ref) = [t] ∧ w.runLoop = [t]))

/-- The static `idleTimer` and the CoreFoundation state agree. -/
def Coherent (st : State) : Prop := HandleOk st.idleTimer st.cf

instance instDecidableCoherent (st : State) : Decidable (Coherent st) :=
  inferInstanceAs (Decidable (HandleOk st.idleTimer st.cf))

/-- The fire dates of the timers that can still fire. -/
def fireDates (w : CFWorld) : List ℚ :=
  (pendingTimers w).map fun tm => tm.nextFireDate

/-- An arm call: the first two statements of `setupSleepWatcher`, which store
the timeout in `idletimeout` and call `setupIdleTimer`. -/
def armIdleTimer (now : ℚ) (timeout : Int) (st : State) : State :=
  setupIdleTimer now { st with idletimeout := timeout }

/-- A sequence of arm calls, each with the time at which it is made and its
timeout. -/
def armRun (calls : List (ℚ × Int)) (st : State) : State :=
  calls.foldl (fun s c => armIdleTimer c.1 c.2 s) st

/-- The run loop looking at its timers at time `now`: when a pending timer is
due, its callout, `idleCallback`, runs; otherwise nothing happens. -/
def runLoopDoTimers (now : ℚ) (st : State) : State :=
  if timerDue now st.cf then idleCallback now st else st

/-- What the run loop can deliver to the program. -/
inductive RunLoopEvent where
  | timer
  | hid
  | power (msgType : Nat) (msgArgument : Int)
  | display (msgType : Nat)
  | powerSource (info : Option PowerSourcesInfo)
  deriving DecidableEq, Repr

/-- Delivery of one event at time `now` to the callback registered for it. -/
def dispatch (now : ℚ) (e : RunLoopEvent) (st : State) : State :=
  match e with
  | RunLoopEvent.timer => runLoopDoTimers now st
  | RunLoopEvent.hid => hidCallback now st
  | RunLoopEvent.power msgType msgArgument => powerCallback now msgType msgArgument st
  | RunLoopEvent.display msgType => displayCallback msgType st
  | RunLoopEvent.powerSource info => powerSourceCallback info st

/-- Delivery of a sequence of events, each at its time. -/
def runEvents (events : List (ℚ × RunLoopEvent)) (st : State) : State :=
  events.foldl (fun s e => dispatch e.1 e.2 s) st

/-- The state in which `setupSleepWatcher`, called at time 0 with timeout 5
from the initial state, enters the run loop. -/
def armedFive : State :=
  { State.init with
    idletimeout := 5
    idleTimer := some 0
    cf := { nextRef := 1
            timers := [⟨0, 1 / 2, kCFAbsoluteTimeIntervalSince1904,
              CFRunLoopTimerCallBack.idleCallback⟩]
            runLoop := [0] } }

/-! ## Display power notifier -/

theorem powerOn_ne_powerOff : kIOMessageDeviceHasPoweredOn ≠ kIOMessageDeviceWillPowerOff := by
  decide

theorem displayCallback_powerOff (st : State) :
    displayCallback kIOMessageDeviceWillPowerOff st =
      { st with trace := st.trace ++ [Effect.onDisplaySleep],
                displayState := (st.displayState + 1) % 2 ^ 32 } := by
  simp [displayCallback]

theorem displayCallback_powerOn (st : State) :
    displayCallback kIOMessageDeviceHasPoweredOn st =
      { st with trace := st.trace ++ [Effect.onDisplayWakeup],
                displayState := displayOn } := by
  simp [displayCallback, powerOn_ne_powerOff]

theorem displayCallback_other (m : Nat) (st : State)
    (h1 : m ≠ kIOMessageDeviceWillPowerOff) (h2 : m ≠ kIOMessageDeviceHasPoweredOn) :
    displayCallback m st = st := by
  simp [displayCallback, h1, h2]

theorem displayRun_append (xs ys : List Nat) (st : State) :
    displayRun (xs ++ ys) st = displayRun ys (displayRun xs st) := by
  simp [displayRun, List.foldl_append]

theorem displayRun_cons (m : Nat) (ms : List Nat) (st : State) :
    displayRun (m :: ms) st = displayRun ms (displayCallback m st) := rfl

theorem displayRun_nil (st : State) : displayRun [] st = st := rfl

theorem powerOffsSinceOn_snoc (msgs : List Nat) (m : Nat) :
    powerOffsSinceOn (msgs ++ [m]) =
      if m = kIOMessageDeviceWillPowerOff then powerOffsSinceOn msgs + 1
      else if m = kIOMessageDeviceHasPoweredOn then 0
      else powerOffsSinceOn msgs := by
  unfold powerOffsSinceOn
  by_cases h1 : m = kIOMessageDeviceWillPowerOff
  · subst h1
    simp [List.takeWhile_cons, powerOn_ne_powerOff.symm]
  · by_cases h2 : m = kIOMessageDeviceHasPoweredOn
    · subst h2
      simp [List.takeWhile_cons, powerOn_ne_powerOff]
    · simp [List.takeWhile_cons, h1, h2, List.count_cons]

theorem displayRun_state_init (msgs : List Nat) :
    (displayRun msgs State.init).displayState = powerOffsSinceOn msgs % 2 ^ 32 := by
  induction msgs using List.reverseRecOn with
  | nil => rfl
  | append_singleton ms m ih =>
    rw [displayRun_append, powerOffsSinceOn_snoc, displayRun_cons, displayRun_nil]
    by_cases h1 : m = kIOMessageDeviceWillPowerOff
    · subst h1
      rw [displayCallback_powerOff, if_pos rfl]
      show ((displayRun ms State.init).displayState + 1) % 2 ^ 32 = _
      rw [ih, Nat.mod_add_mod]
    · by_cases h2 : m = kIOMessageDeviceHasPoweredOn
      · subst h2
        rw [displayCallback_powerOn, if_neg h1, if_pos rfl]
        rfl
      · rw [displayCallback_other m _ h1 h2, if_neg h1, if_neg h2, ih]

theorem displayRun_trace_count (e : Effect) (msgs : List Nat) (st : State) :
    (displayRun msgs st).trace.count e =
      st.trace.count e
        + (if e = Effect.onDisplaySleep then msgs.count kIOMessageDeviceWillPowerOff else 0)
        + (if e = Effect.onDisplayWakeup then msgs.count kIOMessageDeviceHasPoweredOn else 0) := by
  induction msgs generalizing st with
  | nil => simp [displayRun_nil]
  | cons m ms ih =>
    rw [displayRun_cons, ih]
    by_cases h1 : m = kIOMessageDeviceWillPowerOff
    · subst h1
      rw [displayCallback_powerOff]
      by_cases he : e = Effect.onDisplaySleep
      · subst he
        simp [List.count_cons, powerOn_ne_powerOff.symm]
        omega
      · by_cases he2 : e = Effect.onDisplayWakeup
        · subst he2
          simp [List.count_cons, powerOn_ne_powerOff.symm]
        · simp [List.count_cons, he, he2, Ne.symm he]
    · by_cases h2 : m = kIOMessageDeviceHasPoweredOn
      · subst h2
        rw [displayCallback_powerOn]
        by_cases he : e = Effect.onDisplaySleep
        · subst he
          simp [List.count_cons, powerOn_ne_powerOff]
        · by_cases he2 : e = Effect.onDisplayWakeup
          · subst he2
            simp [List.count_cons, powerOn_ne_powerOff]
            omega
          · simp [List.count_cons, he, he2, Ne.symm he2]
      · rw [displayCallback_other m _ h1 h2]
        simp [List.count_cons, Ne.symm h1, Ne.symm h2]

/-- C1: from any state whose display state is On, the first "device will power
off" message leaves the display state Dimmed and the second consecutive one
leaves it Off; from every state, whatever its display state, a "device has
powered on" message leaves the display state On. -/
theorem C1_display_transition_law (st : State) :
    (displayCallback kIOMessageDeviceWillPowerOff
        { st with displayState := displayOn }).displayState = displayDimmed
    ∧ (displayCallback kIOMessageDeviceWillPowerOff
        (displayCallback kIOMessageDeviceWillPowerOff
          { st with displayState := displayOn })).displayState = displayOff
    ∧ (displayCallback kIOMessageDeviceHasPoweredOn st).displayState = displayOn := by
  refine ⟨?_, ?_, ?_⟩
  · rw [displayCallback_powerOff]; rfl
  · rw [displayCallback_powerOff, displayCallback_powerOff]; rfl
  · rw [displayCallback_powerOn]

/-- C2, as stated, fails: three "device will power off" messages from the
initial state leave a display state that is none of On, Dimmed, Off, and a
"device will power off" message received in state Off does not leave Off. -/
theorem C2_display_state_leaves_enum :
    ¬ ((displayRun [kIOMessageDeviceWillPowerOff, kIOMessageDeviceWillPowerOff,
          kIOMessageDeviceWillPowerOff] State.init).displayState = displayOn
        ∨ (displayRun [kIOMessageDeviceWillPowerOff, kIOMessageDeviceWillPowerOff,
          kIOMessageDeviceWillPowerOff] State.init).displayState = displayDimmed
        ∨ (displayRun [kIOMessageDeviceWillPowerOff, kIOMessageDeviceWillPowerOff,
          kIOMessageDeviceWillPowerOff] State.init).displayState = displayOff)
    ∧ (displayCallback kIOMessageDeviceWillPowerOff
        { State.init with displayState := displayOff }).displayState ≠ displayOff := by
  decide

/-- C2, amended: after any finite sequence of display messages processed from
the initial state, the display state is the number of "device will power off"
messages received since the last "device has powered on" message, modulo
2 ^ 32; so it is one of On, Dimmed, Off exactly when that number modulo 2 ^ 32
is at most two, in particular whenever at most two such messages arrived since
the last power-on; and a "device will power off" message received in state Off
leaves the value 3, one past Off. -/
theorem C2_display_state_counts_power_offs (msgs : List Nat) (st : State) :
    (displayRun msgs State.init).displayState = powerOffsSinceOn msgs % 2 ^ 32
    ∧ (((displayRun msgs State.init).displayState = displayOn
          ∨ (displayRun msgs State.init).displayState = displayDimmed
          ∨ (displayRun msgs State.init).displayState = displayOff)
        ↔ powerOffsSinceOn msgs % 2 ^ 32 ≤ 2)
    ∧ (powerOffsSinceOn msgs ≤ 2 →
        (displayRun msgs State.init).displayState = displayOn
          ∨ (displayRun msgs State.init).displayState = displayDimmed
          ∨ (displayRun msgs State.init).displayState = displayOff)
    ∧ (displayCallback kIOMessageDeviceWillPowerOff
        { st with displayState := displayOff }).displayState = 3 := by
  have h := displayRun_state_init msgs
  refine ⟨h, ?_, ?_, ?_⟩
  · rw [h]; simp only [displayOn, displayDimmed, displayOff]; omega
  · intro hle
    rw [h]; simp only [displayOn, displayDimmed, displayOff]; omega
  · rw [displayCallback_powerOff]; rfl

/-- C2, amended, at a concrete sequence: power-off, power-off, power-on,
another message, power-off leaves one power-off since the last power-on. -/
theorem C2_display_state_counts_power_offs_witness :
    powerOffsSinceOn [kIOMessageDeviceWillPowerOff, kIOMessageDeviceWillPowerOff,
        kIOMessageDeviceHasPoweredOn, 7, kIOMessageDeviceWillPowerOff] ≤ 2
    ∧ ((displayRun [kIOMessageDeviceWillPowerOff, kIOMessageDeviceWillPowerOff,
        kIOMessageDeviceHasPoweredOn, 7, kIOMessageDeviceWillPowerOff] State.init).displayState
          = displayOn
      ∨ (displayRun [kIOMessageDeviceWillPowerOff, kIOMessageDeviceWillPowerOff,
        kIOMessageDeviceHasPoweredOn, 7, kIOMessageDeviceWillPowerOff] State.init).displayState
          = displayDimmed
      ∨ (displayRun [kIOMessageDeviceWillPowerOff, kIOMessageDeviceWillPowerOff,
        kIOMessageDeviceHasPoweredOn, 7, kIOMessageDeviceWillPowerOff] State.init).displayState
          = displayOff) :=
  ⟨by decide,
   (C2_display_state_counts_power_offs [kIOMessageDeviceWillPowerOff,
      kIOMessageDeviceWillPowerOff, kIOMessageDeviceHasPoweredOn, 7,
      kIOMessageDeviceWillPowerOff] State.init).2.2.1 (by decide)⟩

/-- C3: for every finite sequence of messages delivered to displayCallback and
every starting state, the run adds to the trace as many onDisplaySleep
invocations as the sequence has "device will power off" messages and as many
onDisplayWakeup invocations as it has "device has powered on" messages,
whatever the display state does; a message of any other type leaves the whole
state, trace included, as it was. -/
theorem C3_display_hooks_per_message (msgs : List Nat) (st : State) (msgType : Nat) :
    (displayRun msgs st).trace.count Effect.onDisplaySleep
        = st.trace.count Effect.onDisplaySleep + msgs.count kIOMessageDeviceWillPowerOff
    ∧ (displayRun msgs st).trace.count Effect.onDisplayWakeup
        = st.trace.count Effect.onDisplayWakeup + msgs.count kIOMessageDeviceHasPoweredOn
    ∧ (msgType = kIOMessageDeviceWillPowerOff ∨ msgType = kIOMessageDeviceHasPoweredOn
        ∨ displayCallback msgType st = st) := by
  refine ⟨?_, ?_, ?_⟩
  · rw [displayRun_trace_count]; simp
  · rw [displayRun_trace_count]; simp
  · by_cases h1 : msgType = kIOMessageDeviceWillPowerOff
    · exact Or.inl h1
    · by_cases h2 : msgType = kIOMessageDeviceHasPoweredOn
      · exact Or.inr (Or.inl h2)
      · exact Or.inr (Or.inr (displayCallback_other msgType st h1 h2))

/-! ## Power source monitor -/

theorem getPowerSource_range (info : Option PowerSourcesInfo) :
    getPowerSource info = POWER_SOURCE_ERROR ∨ getPowerSource info = POWER_SOURCE_BATTERY
      ∨ getPowerSource info = POWER_SOURCE_AC := by
  unfold getPowerSource
  split
  · exact Or.inl rfl
  · split
    · exact Or.inl rfl
    · exact Or.inl rfl
    · exact Or.inl rfl
    · split
      · exact Or.inl rfl
      · split
        · exact Or.inl rfl
        · split
          · exact Or.inr (Or.inr rfl)
          · exact Or.inr (Or.inl rfl)

theorem powerSourceCallback_oldPowerSource (info : Option PowerSourcesInfo) (st : State) :
    (powerSourceCallback info st).oldPowerSource =
      if powerSourceChanged (getPowerSource info) st.oldPowerSource then getPowerSource info
      else st.oldPowerSource := by
  unfold powerSourceCallback
  by_cases h : powerSourceChanged (getPowerSource info) st.oldPowerSource = true <;> simp [h]

theorem powerSourceFireLog_eq_changeLog (infos : List (Option PowerSourcesInfo)) (st : State) :
    powerSourceFireLog infos st = changeLog (infos.map getPowerSource) st.oldPowerSource := by
  induction infos generalizing st with
  | nil => rfl
  | cons info rest ih =>
    simp only [powerSourceFireLog, List.map_cons, changeLog, ih,
      powerSourceCallback_oldPowerSource]

/-- C4, as stated, fails: on answers that resolve to AC, AC, Error, Battery,
Battery, AC, run from the initial state, the body of the `if` of
powerSourceCallback is entered three times, not twice; the first AC already
enters it. -/
theorem C4_reference_sequence_fires_thrice :
    [infoAC, infoAC, infoError, infoBattery, infoBattery, infoAC].map getPowerSource
        = [POWER_SOURCE_AC, POWER_SOURCE_AC, POWER_SOURCE_ERROR, POWER_SOURCE_BATTERY,
            POWER_SOURCE_BATTERY, POWER_SOURCE_AC]
    ∧ powerSourceFires [infoAC, infoAC, infoError, infoBattery, infoBattery, infoAC]
        State.init ≠ 2
    ∧ powerSourceFireLog [infoAC, infoAC, infoError, infoBattery, infoBattery, infoAC]
        State.init = [true, false, false, true, false, true] := by
  decide

/-- C4, amended: on any answers that resolve to AC, AC, Error, Battery,
Battery, AC, a run from the initial state (stored power source Error) enters
the body of the `if` of powerSourceCallback exactly three times, on the first
AC, on the first Battery and on the last AC; a run from a state whose stored
power source is already AC enters it exactly twice, on the first Battery and
on the last AC. -/
theorem C4_reference_sequence (infos : List (Option PowerSourcesInfo)) (st : State)
    (h : infos.map getPowerSource
        = [POWER_SOURCE_AC, POWER_SOURCE_AC, POWER_SOURCE_ERROR, POWER_SOURCE_BATTERY,
            POWER_SOURCE_BATTERY, POWER_SOURCE_AC]) :
    powerSourceFireLog infos State.init = [true, false, false, true, false, true]
    ∧ powerSourceFires infos State.init = 3
    ∧ powerSourceFireLog infos { st with oldPowerSource := POWER_SOURCE_AC }
        = [false, false, false, true, false, true]
    ∧ powerSourceFires infos { st with oldPowerSource := POWER_SOURCE_AC } = 2 := by
  unfold powerSourceFires
  rw [powerSourceFireLog_eq_changeLog, powerSourceFireLog_eq_changeLog, h]
  show changeLog _ POWER_SOURCE_ERROR = _ ∧ List.count true (changeLog _ POWER_SOURCE_ERROR) = 3
    ∧ changeLog _ POWER_SOURCE_AC = _ ∧ List.count true (changeLog _ POWER_SOURCE_AC) = 2
  decide

/-- C4, amended, on concrete answers of the operating system. -/
theorem C4_reference_sequence_witness :
    [infoAC, infoAC, infoError, infoBattery, infoBattery, infoAC].map getPowerSource
        = [POWER_SOURCE_AC, POWER_SOURCE_AC, POWER_SOURCE_ERROR, POWER_SOURCE_BATTERY,
            POWER_SOURCE_BATTERY, POWER_SOURCE_AC]
    ∧ powerSourceFires [infoAC, infoAC, infoError, infoBattery, infoBattery, infoAC]
        State.init = 3
    ∧ powerSourceFires [infoAC, infoAC, infoError, infoBattery, infoBattery, infoAC]
        { State.init with oldPowerSource := POWER_SOURCE_AC } = 2 :=
  ⟨by decide,
   (C4_reference_sequence [infoAC, infoAC, infoError, infoBattery, infoBattery, infoAC]
      State.init (by decide)).2.1,
   (C4_reference_sequence [infoAC, infoAC, infoError, infoBattery, infoBattery, infoAC]
      State.init (by decide)).2.2.2⟩

/-- C5: whatever the stored power source and whatever the operating system
answers, getPowerSource resolves to Error, Battery or AC; when it resolves to
Error, powerSourceCallback leaves the state, stored power source included, as
it was and the change does not fire; when it resolves to AC or Battery, the
stored power source becomes the resolved value, nothing else changes, and the
change fires if and only if the resolved value differs from the stored one. -/
theorem C5_power_source_step (info : Option PowerSourcesInfo) (st : State) :
    (getPowerSource info = POWER_SOURCE_ERROR ∨ getPowerSource info = POWER_SOURCE_BATTERY
      ∨ getPowerSource info = POWER_SOURCE_AC)
    ∧ (getPowerSource info = POWER_SOURCE_ERROR →
        powerSourceCallback info st = st
        ∧ powerSourceChanged (getPowerSource info) st.oldPowerSource = false)
    ∧ (getPowerSource info = POWER_SOURCE_AC ∨ getPowerSource info = POWER_SOURCE_BATTERY →
        powerSourceCallback info st = { st with oldPowerSource := getPowerSource info }
        ∧ (powerSourceChanged (getPowerSource info) st.oldPowerSource = true
            ↔ getPowerSource info ≠ st.oldPowerSource)) := by
  refine ⟨getPowerSource_range info, ?_, ?_⟩
  · intro h
    simp [powerSourceCallback, powerSourceChanged, h]
  · intro h
    have hne : getPowerSource info ≠ POWER_SOURCE_ERROR := by
      rcases h with h | h <;> rw [h] <;> decide
    by_cases hs : getPowerSource info = st.oldPowerSource
    · simp [powerSourceCallback, powerSourceChanged, hne, hs]
    · simp [powerSourceCallback, powerSourceChanged, hne, hs]

/-- C5 at concrete inputs: with AC stored, a read that resolves to Battery
stores Battery and fires; an unresolvable read changes nothing. -/
theorem C5_power_source_step_witness :
    getPowerSource infoBattery = POWER_SOURCE_BATTERY
    ∧ getPowerSource infoError = POWER_SOURCE_ERROR
    ∧ powerSourceCallback infoBattery { State.init with oldPowerSource := POWER_SOURCE_AC }
        = { State.init with oldPowerSource := POWER_SOURCE_BATTERY }
    ∧ powerSourceCallback infoError { State.init with oldPowerSource := POWER_SOURCE_AC }
        = { State.init with oldPowerSource := POWER_SOURCE_AC } :=
  ⟨by decide, by decide,
   ((C5_power_source_step infoBattery
      { State.init with oldPowerSource := POWER_SOURCE_AC }).2.2 (Or.inr (by decide))).1,
   ((C5_power_source_step infoError
      { State.init with oldPowerSource := POWER_SOURCE_AC }).2.1 (by decide)).1⟩

/-! ## Idle timer -/

theorem HandleOk_some_iff (r : Nat) (w : CFWorld) :
    HandleOk (some r) w ↔ ∃ tm, w.timers = [tm] ∧ tm.ref = r ∧ w.runLoop = [r] := by
  obtain ⟨n, timers, runLoop⟩ := w
  constructor
  · rintro ⟨h1, h2⟩
    match timers, h1 with
    | [tm], h1 => exact ⟨tm, rfl, by simpa using h1, h2⟩
  · rintro ⟨tm, h1, h2, h3⟩
    simp only at h1 h3
    subst h1 h2 h3
    exact ⟨rfl, rfl⟩

theorem setupTimer_zero (now : ℚ) (timer : Option Nat) (cb : CFRunLoopTimerCallBack)
    (w : CFWorld) (h : HandleOk timer w) :
    (setupTimer now 0 timer cb w).1 = none
    ∧ (setupTimer now 0 timer cb w).2.timers = []
    ∧ (setupTimer now 0 timer cb w).2.runLoop = []
    ∧ (setupTimer now 0 timer cb w).2.nextRef = w.nextRef := by
  cases timer with
  | none => exact ⟨rfl, h.1, h.2, rfl⟩
  | some r =>
    obtain ⟨tm, h1, h2, h3⟩ := (HandleOk_some_iff r w).1 h
    simp [setupTimer, CFRelease, CFRunLoopTimerInvalidate, h1, h2, h3]

theorem setupTimer_rearm (now : ℚ) (timeout : Int) (r : Nat) (cb : CFRunLoopTimerCallBack)
    (w : CFWorld) (ht : timeout ≠ 0) (h : HandleOk (some r) w) :
    (setupTimer now timeout (some r) cb w).1 = some r
    ∧ HandleOk (some r) (setupTimer now timeout (some r) cb w).2
    ∧ fireDates (setupTimer now timeout (some r) cb w).2 = [now + timeout * TIMER_RESOLUTION]
    ∧ (setupTimer now timeout (some r) cb w).2.nextRef = w.nextRef := by
  obtain ⟨tm, h1, h2, h3⟩ := (HandleOk_some_iff r w).1 h
  refine ⟨by simp [setupTimer, ht], ?_, ?_, by simp [setupTimer, ht, CFRunLoopTimerSetNextFireDate]⟩
  · rw [HandleOk_some_iff]
    exact ⟨{ tm with nextFireDate := now + timeout * TIMER_RESOLUTION },
      by simp [setupTimer, ht, CFRunLoopTimerSetNextFireDate, h1, h2], h2,
      by simp [setupTimer, ht, CFRunLoopTimerSetNextFireDate, h3]⟩
  · simp [fireDates, pendingTimers, setupTimer, ht, CFRunLoopTimerSetNextFireDate, h1, h2, h3]

theorem setupTimer_create (now : ℚ) (timeout : Int) (cb : CFRunLoopTimerCallBack)
    (w : CFWorld) (ht : timeout ≠ 0) (h : HandleOk none w) :
    (setupTimer now timeout none cb w).1 = some w.nextRef
    ∧ HandleOk (some w.nextRef) (setupTimer now timeout none cb w).2
    ∧ fireDates (setupTimer now timeout none cb w).2 = [now + timeout * TIMER_RESOLUTION]
    ∧ (setupTimer now timeout none cb w).2.nextRef = w.nextRef + 1 := by
  obtain ⟨h1, h2⟩ := h
  refine ⟨by simp [setupTimer, ht, CFRunLoopTimerCreate], ?_, ?_, ?_⟩
  · rw [HandleOk_some_iff]
    exact ⟨⟨w.nextRef, now + timeout * TIMER_RESOLUTION, kCFAbsoluteTimeIntervalSince1904, cb⟩,
      by simp [setupTimer, ht, CFRunLoopTimerCreate, CFRunLoopAddTimer, h1, h2], rfl,
      by simp [setupTimer, ht, CFRunLoopTimerCreate, CFRunLoopAddTimer, h1, h2]⟩
  · simp [fireDates, pendingTimers, setupTimer, ht, CFRunLoopTimerCreate, CFRunLoopAddTimer, h1, h2]
  · simp [setupTimer, ht, CFRunLoopTimerCreate, CFRunLoopAddTimer, h1, h2]


theorem timerDue_eq_any (x : ℚ) (w : CFWorld) :
    timerDue x w = (fireDates w).any fun d => decide (d ≤ x) := by
  unfold timerDue fireDates
  induction pendingTimers w with
  | nil => rfl
  | cons tm tms ih => simp only [List.any_cons, List.map_cons, ih]

theorem timerDue_iff_of_fireDates (x d : ℚ) (w : CFWorld) (h : fireDates w = [d]) :
    timerDue x w = true ↔ d ≤ x := by
  simp [timerDue_eq_any, h]

theorem setupIdleTimer_frame (now : ℚ) (st : State) :
    (setupIdleTimer now st).idletimeout = st.idletimeout
    ∧ (setupIdleTimer now st).trace = st.trace
    ∧ (setupIdleTimer now st).displayState = st.displayState
    ∧ (setupIdleTimer now st).oldPowerSource = st.oldPowerSource
    ∧ (setupIdleTimer now st).timeOfLastCall = st.timeOfLastCall :=
  ⟨rfl, rfl, rfl, rfl, rfl⟩

theorem setupIdleTimer_coherent (now : ℚ) (st : State) (h : Coherent st) :
    Coherent (setupIdleTimer now st) := by
  unfold Coherent at h ⊢
  show HandleOk (setupTimer now st.idletimeout st.idleTimer _ st.cf).1
    (setupTimer now st.idletimeout st.idleTimer _ st.cf).2
  by_cases ht : st.idletimeout = 0
  · rw [ht]
    obtain ⟨h1, h2, h3, _⟩ := setupTimer_zero now st.idleTimer .idleCallback st.cf h
    rw [h1]
    exact ⟨h2, h3⟩
  · cases hr : st.idleTimer with
    | none =>
      rw [hr] at h
      obtain ⟨h1, h2, _⟩ := setupTimer_create now st.idletimeout .idleCallback st.cf ht h
      rw [h1]; exact h2
    | some r =>
      rw [hr] at h
      obtain ⟨h1, h2, _⟩ := setupTimer_rearm now st.idletimeout r .idleCallback st.cf ht h
      rw [h1]; exact h2

theorem setupIdleTimer_armed (now : ℚ) (st : State) (h : Coherent st)
    (ht : st.idletimeout ≠ 0) :
    fireDates (setupIdleTimer now st).cf = [now + st.idletimeout * TIMER_RESOLUTION]
    ∧ (∀ r, st.idleTimer = some r →
        (setupIdleTimer now st).idleTimer = some r
        ∧ (setupIdleTimer now st).cf.nextRef = st.cf.nextRef)
    ∧ (st.idleTimer = none →
        (setupIdleTimer now st).idleTimer = some st.cf.nextRef
        ∧ (setupIdleTimer now st).cf.nextRef = st.cf.nextRef + 1) := by
  unfold Coherent at h
  cases hr : st.idleTimer with
  | none =>
    rw [hr] at h
    obtain ⟨h1, _, h3, h4⟩ := setupTimer_create now st.idletimeout .idleCallback st.cf ht h
    refine ⟨?_, fun r hr2 => by simp at hr2, fun _ => ⟨?_, ?_⟩⟩
    · show fireDates (setupTimer now st.idletimeout st.idleTimer _ st.cf).2 = _
      rw [hr]; exact h3
    · show (setupTimer now st.idletimeout st.idleTimer _ st.cf).1 = _
      rw [hr]; exact h1
    · show (setupTimer now st.idletimeout st.idleTimer _ st.cf).2.nextRef = _
      rw [hr]; exact h4
  | some r =>
    rw [hr] at h
    obtain ⟨h1, _, h3, h4⟩ := setupTimer_rearm now st.idletimeout r .idleCallback st.cf ht h
    refine ⟨?_, fun r2 hr2 => ⟨?_, ?_⟩, fun hn => by simp at hn⟩
    · show fireDates (setupTimer now st.idletimeout st.idleTimer _ st.cf).2 = _
      rw [hr]; exact h3
    · show (setupTimer now st.idletimeout st.idleTimer _ st.cf).1 = _
      rw [hr, ← hr2]; exact h1
    · show (setupTimer now st.idletimeout st.idleTimer _ st.cf).2.nextRef = _
      rw [hr]; exact h4

theorem setupIdleTimer_disarmed (now : ℚ) (st : State) (h : Coherent st)
    (ht : st.idletimeout = 0) :
    (setupIdleTimer now st).idleTimer = none
    ∧ (setupIdleTimer now st).cf.timers = []
    ∧ (setupIdleTimer now st).cf.runLoop = []
    ∧ (setupIdleTimer now st).cf.nextRef = st.cf.nextRef := by
  have := setupTimer_zero now st.idleTimer .idleCallback st.cf h
  rw [← ht] at this
  exact this

theorem coherent_sizes (st : State) (h : Coherent st) :
    st.cf.timers.length ≤ 1 ∧ st.cf.runLoop.length ≤ 1
    ∧ (pendingTimers st.cf).length ≤ 1 := by
  unfold Coherent at h
  cases hr : st.idleTimer with
  | none =>
    rw [hr] at h
    simp [pendingTimers, h.1, h.2]
  | some r =>
    rw [hr] at h
    obtain ⟨tm, h1, h2, h3⟩ := (HandleOk_some_iff r st.cf).1 h
    simp [pendingTimers, h1, h2, h3]

theorem armRun_coherent (calls : List (ℚ × Int)) (st : State) (h : Coherent st) :
    Coherent (armRun calls st) := by
  induction calls generalizing st with
  | nil => exact h
  | cons c cs ih =>
    exact ih _ (setupIdleTimer_coherent c.1 _ h)


theorem hidCallback_eq (now : ℚ) (st : State) :
    hidCallback now st = setupIdleTimer now { st with timeOfLastCall := now } := by
  unfold hidCallback
  by_cases h : st.timeOfLastCall = 0 <;> simp [h]

theorem powerCallback_hasPoweredOn (now : ℚ) (msgArgument : Int) (st : State) :
    powerCallback now kIOMessageSystemHasPoweredOn msgArgument st = setupIdleTimer now st := by
  simp [powerCallback, kIOMessageSystemHasPoweredOn, kIOMessageCanSystemSleep,
    kIOMessageSystemWillSleep, kIOMessageSystemWillNotSleep]

theorem runLoopDoTimers_before (x d : ℚ) (st : State) (h : fireDates st.cf = [d])
    (hx : x < d) : runLoopDoTimers x st = st := by
  have : ¬ timerDue x st.cf = true := by
    rw [timerDue_iff_of_fireDates x d st.cf h]; exact not_le.mpr hx
  simp [runLoopDoTimers, this]

theorem runLoopDoTimers_due (x d : ℚ) (st : State) (h : fireDates st.cf = [d])
    (hx : d ≤ x) : runLoopDoTimers x st = idleCallback x st := by
  have : timerDue x st.cf = true := (timerDue_iff_of_fireDates x d st.cf h).2 hx
  simp [runLoopDoTimers, this]

/-- C6: from any state in which the handle and CoreFoundation agree (no handle
and no timer, or one handle naming the only timer), after any sequence of arm
calls with arbitrary timeouts followed by one more arm call, they still agree
and there is at most one timer object and at most one timer on the run loop;
when the last timeout is 0 there is no handle, no timer object and nothing on
the run loop, so no timer is due at any later time; when it is not 0, an
existing handle is kept and no timer is created, and a timer is created, once,
only when there was no handle. -/
theorem C6_idle_timer_handle_invariant (st : State) (calls : List (ℚ × Int)) (now : ℚ)
    (timeout : Int) (h : Coherent st) :
    Coherent (armIdleTimer now timeout (armRun calls st))
    ∧ (armIdleTimer now timeout (armRun calls st)).cf.timers.length ≤ 1
    ∧ (armIdleTimer now timeout (armRun calls st)).cf.runLoop.length ≤ 1
    ∧ (timeout = 0 →
        (armIdleTimer now timeout (armRun calls st)).idleTimer = none
        ∧ (armIdleTimer now timeout (armRun calls st)).cf.timers = []
        ∧ (armIdleTimer now timeout (armRun calls st)).cf.runLoop = []
        ∧ ∀ later, timerDue later (armIdleTimer now timeout (armRun calls st)).cf = false)
    ∧ (timeout ≠ 0 →
        (∀ r, (armRun calls st).idleTimer = some r →
          (armIdleTimer now timeout (armRun calls st)).idleTimer = some r
          ∧ (armIdleTimer now timeout (armRun calls st)).cf.nextRef
              = (armRun calls st).cf.nextRef)
        ∧ ((armRun calls st).idleTimer = none →
          (armIdleTimer now timeout (armRun calls st)).idleTimer
              = some (armRun calls st).cf.nextRef
          ∧ (armIdleTimer now timeout (armRun calls st)).cf.nextRef
              = (armRun calls st).cf.nextRef + 1)) := by
  have hc : Coherent (armRun calls st) := armRun_coherent calls st h
  have hc1 : Coherent { armRun calls st with idletimeout := timeout } := hc
  have hc2 : Coherent (armIdleTimer now timeout (armRun calls st)) :=
    setupIdleTimer_coherent now _ hc1
  obtain ⟨s1, s2, _⟩ := coherent_sizes _ hc2
  refine ⟨hc2, s1, s2, ?_, ?_⟩
  · intro ht
    obtain ⟨h1, h2, h3, _⟩ := setupIdleTimer_disarmed now _ hc1 ht
    refine ⟨h1, h2, h3, fun later => ?_⟩
    unfold armIdleTimer
    simp [timerDue, pendingTimers, h2]
  · intro ht
    obtain ⟨_, h2, h3⟩ := setupIdleTimer_armed now _ hc1 ht
    exact ⟨h2, h3⟩

/-- C7: with a timeout t > 0 configured and the timer armed, idleCallback run
at time now adds exactly one onSystemIdle to the trace, keeps the same handle
without creating a timer, keeps the timeout, and moves the fire date of that
timer to now + t * TIMER_RESOLUTION; the run loop does not fire it at any
earlier time, and fires it at that time, which gives the second onSystemIdle
one timeout after the first. -/
theorem C7_idle_fire_cycle (st : State) (now : ℚ) (r : Nat) (h : Coherent st)
    (ht : 0 < st.idletimeout) (hr : st.idleTimer = some r) :
    (idleCallback now st).trace = st.trace ++ [Effect.onSystemIdle]
    ∧ (idleCallback now st).idleTimer = some r
    ∧ (idleCallback now st).cf.nextRef = st.cf.nextRef
    ∧ (idleCallback now st).idletimeout = st.idletimeout
    ∧ fireDates (idleCallback now st).cf = [now + st.idletimeout * TIMER_RESOLUTION]
    ∧ (∀ x, x < now + st.idletimeout * TIMER_RESOLUTION →
        runLoopDoTimers x (idleCallback now st) = idleCallback now st)
    ∧ (runLoopDoTimers (now + st.idletimeout * TIMER_RESOLUTION) (idleCallback now st)).trace
        = st.trace ++ [Effect.onSystemIdle, Effect.onSystemIdle] := by
  have hc1 : Coherent { st with trace := st.trace ++ [Effect.onSystemIdle] } := h
  have hne : st.idletimeout ≠ 0 := ne_of_gt ht
  obtain ⟨h1, h2, _⟩ := setupIdleTimer_armed now _ hc1 hne
  obtain ⟨h3, h4⟩ := h2 r hr
  have h1a : fireDates (idleCallback now st).cf
      = [now + st.idletimeout * TIMER_RESOLUTION] := h1
  refine ⟨rfl, h3, h4, rfl, h1a, fun x hx => runLoopDoTimers_before x _ _ h1a hx, ?_⟩
  rw [runLoopDoTimers_due _ _ _ h1a le_rfl]
  show (st.trace ++ [Effect.onSystemIdle]) ++ [Effect.onSystemIdle] = _
  simp


theorem resolution_pos : 0 < TIMER_RESOLUTION := by
  unfold TIMER_RESOLUTION; norm_num

theorem hidCallback_armed (now : ℚ) (st : State) (h : Coherent st)
    (ht : st.idletimeout ≠ 0) :
    (hidCallback now st).trace = st.trace
    ∧ fireDates (hidCallback now st).cf = [now + st.idletimeout * TIMER_RESOLUTION] := by
  rw [hidCallback_eq]
  have hc1 : Coherent { st with timeOfLastCall := now } := h
  exact ⟨rfl, (setupIdleTimer_armed now _ hc1 ht).1⟩

theorem powerCallback_armed (now : ℚ) (msgArgument : Int) (st : State) (h : Coherent st)
    (ht : st.idletimeout ≠ 0) :
    (powerCallback now kIOMessageSystemHasPoweredOn msgArgument st).trace = st.trace
    ∧ fireDates (powerCallback now kIOMessageSystemHasPoweredOn msgArgument st).cf
        = [now + st.idletimeout * TIMER_RESOLUTION] := by
  rw [powerCallback_hasPoweredOn]
  exact ⟨rfl, (setupIdleTimer_armed now _ h ht).1⟩

theorem idleCallback_trace (now : ℚ) (st : State) :
    (idleCallback now st).trace = st.trace ++ [Effect.onSystemIdle] := rfl

/-- C8: with a timeout t > 0 configured, an input event (hidCallback) or a
"system has powered on" message (powerCallback) handled at time s leaves the
trace as it was and makes s + t * TIMER_RESOLUTION the only pending fire date;
with s counted in units of TIMER_RESOLUTION that is s + t units.  The run loop
does not fire before that date and fires onSystemIdle at it.  After a wake at
t/2 units nothing fires at t units and the idle hook fires at 3/2 t units;
with timeout 5 and an input event at 2 units nothing fires at 5 units and the
idle hook fires at 7 units. -/
theorem C8_activity_restarts_idle_window (st : State) (s : ℚ) (msgArgument : Int)
    (h : Coherent st) (ht : 0 < st.idletimeout) :
    ((hidCallback s st).trace = st.trace
      ∧ fireDates (hidCallback s st).cf = [s + st.idletimeout * TIMER_RESOLUTION])
    ∧ ((powerCallback s kIOMessageSystemHasPoweredOn msgArgument st).trace = st.trace
      ∧ fireDates (powerCallback s kIOMessageSystemHasPoweredOn msgArgument st).cf
          = [s + st.idletimeout * TIMER_RESOLUTION])
    ∧ (fireDates (hidCallback (s * TIMER_RESOLUTION) st).cf
          = [(s + st.idletimeout) * TIMER_RESOLUTION]
      ∧ fireDates
          (powerCallback (s * TIMER_RESOLUTION) kIOMessageSystemHasPoweredOn msgArgument st).cf
          = [(s + st.idletimeout) * TIMER_RESOLUTION])
    ∧ ((∀ x, x < s + st.idletimeout * TIMER_RESOLUTION →
          runLoopDoTimers x (hidCallback s st) = hidCallback s st)
      ∧ (runLoopDoTimers (s + st.idletimeout * TIMER_RESOLUTION) (hidCallback s st)).trace
          = st.trace ++ [Effect.onSystemIdle])
    ∧ (runLoopDoTimers (st.idletimeout * TIMER_RESOLUTION)
          (powerCallback (st.idletimeout / 2 * TIMER_RESOLUTION)
            kIOMessageSystemHasPoweredOn msgArgument st)
        = powerCallback (st.idletimeout / 2 * TIMER_RESOLUTION)
            kIOMessageSystemHasPoweredOn msgArgument st
      ∧ (runLoopDoTimers (3 / 2 * st.idletimeout * TIMER_RESOLUTION)
          (powerCallback (st.idletimeout / 2 * TIMER_RESOLUTION)
            kIOMessageSystemHasPoweredOn msgArgument st)).trace
        = st.trace ++ [Effect.onSystemIdle])
    ∧ (st.idletimeout = 5 →
        runLoopDoTimers (5 * TIMER_RESOLUTION) (hidCallback (2 * TIMER_RESOLUTION) st)
          = hidCallback (2 * TIMER_RESOLUTION) st
        ∧ (runLoopDoTimers (7 * TIMER_RESOLUTION)
            (hidCallback (2 * TIMER_RESOLUTION) st)).trace
          = st.trace ++ [Effect.onSystemIdle]) := by
  have hne : st.idletimeout ≠ 0 := ne_of_gt ht
  have hq : (0 : ℚ) < st.idletimeout := by exact_mod_cast ht
  have hu := resolution_pos
  have hid := fun now => hidCallback_armed now st h hne
  have pw := fun now => powerCallback_armed now msgArgument st h hne
  refine ⟨hid s, pw s, ⟨?_, ?_⟩, ⟨?_, ?_⟩, ⟨?_, ?_⟩, ?_⟩
  · rw [(hid _).2, add_mul]
  · rw [(pw _).2, add_mul]
  · exact fun x hx => runLoopDoTimers_before x _ _ (hid s).2 hx
  · rw [runLoopDoTimers_due _ _ _ (hid s).2 le_rfl, idleCallback_trace, (hid s).1]
  · apply runLoopDoTimers_before _ _ _ (pw _).2
    nlinarith
  · rw [runLoopDoTimers_due _ _ _ (pw _).2 (by nlinarith), idleCallback_trace, (pw _).1]
  · intro h5
    have hd : fireDates (hidCallback (2 * TIMER_RESOLUTION) st).cf = [7 * TIMER_RESOLUTION] := by
      rw [(hid _).2, h5]; norm_num; ring
    refine ⟨runLoopDoTimers_before _ _ _ hd (by nlinarith), ?_⟩
    rw [runLoopDoTimers_due _ _ _ hd le_rfl, idleCallback_trace, (hid _).1]

theorem armedFive_eq : setupSleepWatcher 0 5 true State.init = some armedFive := by
  simp [setupSleepWatcher, setupIdleTimer, setupTimer, State.init, armedFive,
    CFRunLoopTimerCreate, CFRunLoopAddTimer, TIMER_RESOLUTION]
  norm_num

theorem armedFive_coherent : Coherent armedFive := ⟨rfl, rfl⟩

theorem init_coherent : Coherent State.init := ⟨rfl, rfl⟩


theorem setupSleepWatcher_subscribed (now : ℚ) (timeout : Int) (st : State) :
    setupSleepWatcher now timeout true st = some (armIdleTimer now timeout st) := rfl

/-- C9, as stated, fails: the setup entry point called at time 0 with timeout 1
sets the fire date to 1/10 second, not to 0 + 1 seconds, both when it creates
the timer (from the initial state) and when it re-arms an existing one. -/
theorem C9_timeout_not_in_seconds :
    (setupSleepWatcher 0 1 true State.init).map (fun s => fireDates s.cf) = some [1 / 10]
    ∧ (setupSleepWatcher 0 1 true State.init).map (fun s => fireDates s.cf) ≠ some [0 + 1]
    ∧ (setupSleepWatcher 0 1 true armedFive).map (fun s => fireDates s.cf) = some [1 / 10]
    ∧ (setupSleepWatcher 0 1 true armedFive).map (fun s => fireDates s.cf) ≠ some [0 + 1] := by
  have h1 : fireDates (armIdleTimer 0 1 State.init).cf = [1 / 10] := by
    have e : fireDates (armIdleTimer 0 1 State.init).cf = [0 + ((1 : Int) : ℚ) * TIMER_RESOLUTION] :=
      (setupIdleTimer_armed 0 { State.init with idletimeout := 1 } init_coherent
        (by decide)).1
    rw [e]; norm_num [TIMER_RESOLUTION]
  have h2 : fireDates (armIdleTimer 0 1 armedFive).cf = [1 / 10] := by
    have e : fireDates (armIdleTimer 0 1 armedFive).cf = [0 + ((1 : Int) : ℚ) * TIMER_RESOLUTION] :=
      (setupIdleTimer_armed 0 { armedFive with idletimeout := 1 } armedFive_coherent
        (by decide)).1
    rw [e]; norm_num [TIMER_RESOLUTION]
  simp only [setupSleepWatcher_subscribed, Option.map_some', h1, h2]
  norm_num

/-- C9, amended: the idle timeout is in tenths of a second: for every timeout
t > 0 passed to setupSleepWatcher at time now (in seconds), the only pending
fire date afterwards is now + t / 10 seconds, which is not now + t, both when
a timer is created (no handle before) and when the existing timer is
re-armed (same handle, no creation). -/
theorem C9_timeout_in_tenths_of_a_second (st : State) (now : ℚ) (t : Int)
    (h : Coherent st) (ht : 0 < t) :
    setupSleepWatcher now t true st = some (armIdleTimer now t st)
    ∧ (armIdleTimer now t st).idletimeout = t
    ∧ fireDates (armIdleTimer now t st).cf = [now + t / 10]
    ∧ fireDates (armIdleTimer now t st).cf ≠ [now + t]
    ∧ (st.idleTimer = none →
        (armIdleTimer now t st).idleTimer = some st.cf.nextRef
        ∧ (armIdleTimer now t st).cf.nextRef = st.cf.nextRef + 1)
    ∧ (∀ r, st.idleTimer = some r →
        (armIdleTimer now t st).idleTimer = some r
        ∧ (armIdleTimer now t st).cf.nextRef = st.cf.nextRef) := by
  have hc1 : Coherent { st with idletimeout := t } := h
  have hne : ({ st with idletimeout := t } : State).idletimeout ≠ 0 := ne_of_gt ht
  obtain ⟨h1, h2, h3⟩ := setupIdleTimer_armed now _ hc1 hne
  have hq : (0 : ℚ) < t := by exact_mod_cast ht
  have hd : fireDates (armIdleTimer now t st).cf = [now + t / 10] := by
    have : fireDates (armIdleTimer now t st).cf = [now + t * TIMER_RESOLUTION] := h1
    rw [this]; unfold TIMER_RESOLUTION; congr 1; ring
  refine ⟨rfl, rfl, hd, ?_, h3, h2⟩
  rw [hd]
  intro he
  have : now + (t : ℚ) / 10 = now + t := by simpa using he
  linarith

/-- C10: for every timeout t < 0 and every prior handle state, setupTimer
returns a handle that names the only timer, whose fire date is
now + t * TIMER_RESOLUTION, strictly earlier than now; the returned handle, the
run loop and the number of created timers are those of the call with the
positive timeout -t; setupTimer returns no handle exactly when the timeout is
0; and setupSleepWatcher with a negative timeout enters the run loop with a
handle and that fire date. -/
theorem C10_negative_timeout_arms (st : State) (now : ℚ) (t : Int)
    (cb : CFRunLoopTimerCallBack) (h : Coherent st) (ht : t < 0) :
    (∃ r, (setupTimer now t st.idleTimer cb st.cf).1 = some r
        ∧ HandleOk (some r) (setupTimer now t st.idleTimer cb st.cf).2)
    ∧ fireDates (setupTimer now t st.idleTimer cb st.cf).2 = [now + t * TIMER_RESOLUTION]
    ∧ now + t * TIMER_RESOLUTION < now
    ∧ ((setupTimer now t st.idleTimer cb st.cf).1 = (setupTimer now (-t) st.idleTimer cb st.cf).1
      ∧ (setupTimer now t st.idleTimer cb st.cf).2.runLoop
          = (setupTimer now (-t) st.idleTimer cb st.cf).2.runLoop
      ∧ (setupTimer now t st.idleTimer cb st.cf).2.nextRef
          = (setupTimer now (-t) st.idleTimer cb st.cf).2.nextRef)
    ∧ (∀ t2 : Int, (setupTimer now t2 st.idleTimer cb st.cf).1 = none ↔ t2 = 0)
    ∧ (setupSleepWatcher now t true st = some (armIdleTimer now t st)
      ∧ (armIdleTimer now t st).idleTimer ≠ none
      ∧ fireDates (armIdleTimer now t st).cf = [now + t * TIMER_RESOLUTION]) := by
  have hne : t ≠ 0 := ne_of_lt ht
  have hq : (t : ℚ) < 0 := by exact_mod_cast ht
  have hu := resolution_pos
  have hlt : now + t * TIMER_RESOLUTION < now := by nlinarith
  have key : ∀ t2 : Int, t2 ≠ 0 →
      (∃ r, (setupTimer now t2 st.idleTimer cb st.cf).1 = some r
        ∧ HandleOk (some r) (setupTimer now t2 st.idleTimer cb st.cf).2)
      ∧ fireDates (setupTimer now t2 st.idleTimer cb st.cf).2 = [now + t2 * TIMER_RESOLUTION] := by
    intro t2 h2
    unfold Coherent at h
    cases hr : st.idleTimer with
    | none =>
      rw [hr] at h
      obtain ⟨a, b, c, _⟩ := setupTimer_create now t2 cb st.cf h2 h
      exact ⟨⟨_, a, b⟩, c⟩
    | some r =>
      rw [hr] at h
      obtain ⟨a, b, c, _⟩ := setupTimer_rearm now t2 r cb st.cf h2 h
      exact ⟨⟨_, a, b⟩, c⟩
  obtain ⟨k1, k2⟩ := key t hne
  refine ⟨k1, k2, hlt, ?_, ?_, rfl, ?_, ?_⟩
  · have hneg : -t ≠ 0 := neg_ne_zero.mpr hne
    unfold Coherent at h
    cases hr : st.idleTimer with
    | none =>
      rw [hr] at h
      obtain ⟨a, b, _, d⟩ := setupTimer_create now t cb st.cf hne h
      obtain ⟨a2, b2, _, d2⟩ := setupTimer_create now (-t) cb st.cf hneg h
      exact ⟨by rw [a, a2], by rw [b.2, b2.2], by rw [d, d2]⟩
    | some r =>
      rw [hr] at h
      obtain ⟨a, b, _, d⟩ := setupTimer_rearm now t r cb st.cf hne h
      obtain ⟨a2, b2, _, d2⟩ := setupTimer_rearm now (-t) r cb st.cf hneg h
      exact ⟨by rw [a, a2], by rw [b.2, b2.2], by rw [d, d2]⟩
  · intro t2
    constructor
    · intro hnone
      by_contra h2
      obtain ⟨⟨r, a, _⟩, _⟩ := key t2 h2
      rw [a] at hnone
      exact Option.noConfusion hnone
    · intro h0
      subst h0
      exact (setupTimer_zero now st.idleTimer cb st.cf h).1
  · have hc1 : Coherent { st with idletimeout := t } := h
    obtain ⟨⟨r, a, _⟩, _⟩ := key t hne
    cases hr : st.idleTimer with
    | none =>
      have := ((setupIdleTimer_armed now { st with idletimeout := t } hc1 hne).2.2 hr).1
      unfold armIdleTimer; rw [this]; simp
    | some r =>
      have := ((setupIdleTimer_armed now { st with idletimeout := t } hc1 hne).2.1 r hr).1
      unfold armIdleTimer; rw [this]; simp
  · exact (setupIdleTimer_armed now { st with idletimeout := t } h hne).1


theorem dispatch_coherent (now : ℚ) (e : RunLoopEvent) (st : State) (h : Coherent st) :
    Coherent (dispatch now e st) := by
  cases e with
  | timer =>
    show Coherent (runLoopDoTimers now st)
    unfold runLoopDoTimers
    split
    · exact setupIdleTimer_coherent now { st with trace := st.trace ++ [Effect.onSystemIdle] } h
    · exact h
  | hid =>
    show Coherent (hidCallback now st)
    rw [hidCallback_eq]
    exact setupIdleTimer_coherent now { st with timeOfLastCall := now } h
  | power msgType msgArgument =>
    show Coherent (powerCallback now msgType msgArgument st)
    unfold powerCallback
    split
    · exact h
    · split
      · exact h
      · split
        · exact h
        · split
          · exact setupIdleTimer_coherent now st h
          · exact h
  | display msgType =>
    show Coherent (displayCallback msgType st)
    unfold displayCallback
    split
    · exact h
    · split
      · exact h
      · exact h
  | powerSource info =>
    show Coherent (powerSourceCallback info st)
    unfold powerSourceCallback
    by_cases hc : powerSourceChanged (getPowerSource info) st.oldPowerSource = true
    · simp only [hc, if_true]; exact h
    · simp only [hc]; exact h

theorem runEvents_coherent (events : List (ℚ × RunLoopEvent)) (st : State)
    (h : Coherent st) : Coherent (runEvents events st) := by
  induction events generalizing st with
  | nil => exact h
  | cons e es ih => exact ih _ (dispatch_coherent e.1 e.2 st h)

theorem reachable_coherent (now : ℚ) (timeout : Int) (events : List (ℚ × RunLoopEvent)) :
    Coherent (runEvents events (armIdleTimer now timeout State.init)) :=
  runEvents_coherent events _
    (setupIdleTimer_coherent now { State.init with idletimeout := timeout } init_coherent)

/-- C6 at a concrete input: from the initial state, arm calls with timeouts
5, 0 and -3 followed by an arm call with timeout 0 leave no handle, no timer
object and nothing on the run loop. -/
theorem C6_idle_timer_handle_invariant_witness :
    Coherent State.init
    ∧ (armIdleTimer 3 0 (armRun [(0, 5), (1, 0), (2, -3)] State.init)).idleTimer = none
    ∧ (armIdleTimer 3 0 (armRun [(0, 5), (1, 0), (2, -3)] State.init)).cf.timers = []
    ∧ (armIdleTimer 3 0 (armRun [(0, 5), (1, 0), (2, -3)] State.init)).cf.runLoop = [] :=
  ⟨⟨rfl, rfl⟩,
   ((C6_idle_timer_handle_invariant State.init [(0, 5), (1, 0), (2, -3)] 3 0
      ⟨rfl, rfl⟩).2.2.2.1 rfl).1,
   ((C6_idle_timer_handle_invariant State.init [(0, 5), (1, 0), (2, -3)] 3 0
      ⟨rfl, rfl⟩).2.2.2.1 rfl).2.1,
   ((C6_idle_timer_handle_invariant State.init [(0, 5), (1, 0), (2, -3)] 3 0
      ⟨rfl, rfl⟩).2.2.2.1 rfl).2.2.1⟩

/-- C7 at a concrete input: the timer armed at time 0 with timeout 5 fires at
time 1/2. -/
theorem C7_idle_fire_cycle_witness :
    Coherent armedFive
    ∧ 0 < armedFive.idletimeout
    ∧ armedFive.idleTimer = some 0
    ∧ (idleCallback (1 / 2) armedFive).trace = armedFive.trace ++ [Effect.onSystemIdle]
    ∧ (idleCallback (1 / 2) armedFive).idleTimer = some 0
    ∧ fireDates (idleCallback (1 / 2) armedFive).cf
        = [1 / 2 + armedFive.idletimeout * TIMER_RESOLUTION] :=
  ⟨⟨rfl, rfl⟩, by decide, rfl,
   (C7_idle_fire_cycle armedFive (1 / 2) 0 ⟨rfl, rfl⟩ (by decide) rfl).1,
   (C7_idle_fire_cycle armedFive (1 / 2) 0 ⟨rfl, rfl⟩ (by decide) rfl).2.1,
   (C7_idle_fire_cycle armedFive (1 / 2) 0 ⟨rfl, rfl⟩ (by decide) rfl).2.2.2.2.1⟩

/-- C8 at a concrete input: timeout 5 armed at time 0, one input event at 2
units of TIMER_RESOLUTION: nothing fires at 5 units, the idle hook fires at 7
units. -/
theorem C8_activity_restarts_idle_window_witness :
    Coherent armedFive
    ∧ 0 < armedFive.idletimeout
    ∧ runLoopDoTimers (5 * TIMER_RESOLUTION) (hidCallback (2 * TIMER_RESOLUTION) armedFive)
        = hidCallback (2 * TIMER_RESOLUTION) armedFive
    ∧ (runLoopDoTimers (7 * TIMER_RESOLUTION)
        (hidCallback (2 * TIMER_RESOLUTION) armedFive)).trace
        = armedFive.trace ++ [Effect.onSystemIdle] :=
  ⟨⟨rfl, rfl⟩, by decide,
   ((C8_activity_restarts_idle_window armedFive 2 0 ⟨rfl, rfl⟩
      (by decide)).2.2.2.2.2 rfl).1,
   ((C8_activity_restarts_idle_window armedFive 2 0 ⟨rfl, rfl⟩
      (by decide)).2.2.2.2.2 rfl).2⟩

/-- C9, amended, at a concrete input: timeout 5 at time 0 from the initial
state gives the fire date 5/10. -/
theorem C9_timeout_in_tenths_of_a_second_witness :
    Coherent State.init
    ∧ (0 : Int) < 5
    ∧ fireDates (armIdleTimer 0 5 State.init).cf = [0 + ((5 : Int) : ℚ) / 10] :=
  ⟨⟨rfl, rfl⟩, by decide,
   (C9_timeout_in_tenths_of_a_second State.init 0 5 ⟨rfl, rfl⟩ (by decide)).2.2.1⟩

/-- C10 at a concrete input: timeout -3 at time 0 from the initial state arms
the timer, with a fire date before time 0. -/
theorem C10_negative_timeout_arms_witness :
    Coherent State.init
    ∧ (-3 : Int) < 0
    ∧ fireDates (setupTimer 0 (-3) State.init.idleTimer CFRunLoopTimerCallBack.idleCallback
        State.init.cf).2 = [0 + ((-3 : Int) : ℚ) * TIMER_RESOLUTION]
    ∧ (0 : ℚ) + ((-3 : Int) : ℚ) * TIMER_RESOLUTION < 0 :=
  ⟨⟨rfl, rfl⟩, by decide,
   (C10_negative_timeout_arms State.init 0 (-3) CFRunLoopTimerCallBack.idleCallback
      ⟨rfl, rfl⟩ (by decide)).2.1,
   (C10_negative_timeout_arms State.init 0 (-3) CFRunLoopTimerCallBack.idleCallback
      ⟨rfl, rfl⟩ (by decide)).2.2.1⟩

end SleepWatcher
